import Mathlib

/-! SLiPoM status LED and door switch, WarpDriveLighting control knob.

A shallow embedding of the blink controller of the SLiPoM sketch (`src/SLiPoM/led.cpp`),
of its door switch query (`src/SLiPoM/door.cpp`) and of the control knob of the
WarpDriveLighting sketch (`src/WarpDriveLighting/ControlKnob.cpp`).  The target is an
AVR board: `int` is 16 bits wide, `uint32_t` arithmetic is taken modulo `2^32`.

Every C function of `led.cpp` is embedded twice over, from one definition: as the
ordered list of primitive operations it performs (`…Ops`, the calls on the NeoPixel and
TimerOne objects and the writes of the four `volatile` globals, in source order), and as
the state transformer obtained by running that list (`run`).  The `DEBUG_PRINT…` macros
expand to nothing (`settings.h` leaves `DEBUG` undefined) and are omitted.
-/

namespace SLiPoM

/-! ## Machine arithmetic -/

/-- Value of a mathematical integer stored in the 16-bit signed `int` of the target. -/
def wrapInt16 (x : Int) : Int := (x + 32768) % 65536 - 32768

/-- Value of a mathematical integer converted to `uint32_t` / `unsigned long`. -/
def toUInt32 (x : Int) : Nat := (x % 4294967296).toNat

/-! ## External collaborators -/

/-- Modelled from the spec: `Adafruit_NeoPixel::Color(r, g, b)`, the indicator driver's
packing of three channel values into one integer, `(r << 16) | (g << 8) | b`.  The
driver is a library outside this repository. -/
def Color (r g b : Nat) : Nat := (r <<< 16) ||| (g <<< 8) ||| b

/-- The globals of `led.cpp` together with the observable state of the two collaborators
(the one-pixel strip `pixel` and the hardware timer `timer`). -/
structure State where
  /-- Global `volatile int currentCycle`. -/
  currentCycle : Int
  /-- Global `volatile int cycleCount`. -/
  cycleCount : Int
  /-- Global `volatile uint32_t color`. -/
  color : Nat
  /-- Global `volatile boolean timerRunning`. -/
  timerRunning : Bool
  /-- Colour stored in the strip's buffer for pixel 0 (last `setPixelColor`). -/
  pixelBuffer : Nat
  /-- Colour the LED displays (the buffer as of the last `show`). -/
  pixelShown : Nat
  /-- Period the timer is programmed with, in microseconds. -/
  timerPeriod : Nat
  /-- The timer is counting (`start` called after the last `stop`). -/
  timerStarted : Bool
  /-- A callback is attached to the timer interrupt. -/
  handlerAttached : Bool
  deriving DecidableEq, Repr

/-- The state at power-on: the initialisers of the globals (lines 20-36), a dark pixel
and an untouched timer. -/
def powerOn : State :=
  { currentCycle := 0, cycleCount := 0, color := 0, timerRunning := false,
    pixelBuffer := 0, pixelShown := 0, timerPeriod := 0, timerStarted := false,
    handlerAttached := false }

/-- The primitive operations performed by the functions of `led.cpp`. -/
inductive Op where
  /-- Call `pixel.begin()`. -/
  | pixelBegin
  /-- Call `pixel.setPixelColor(n, c)` with a packed colour. -/
  | setPixelColor (n : Nat) (c : Nat)
  /-- Call `pixel.setPixelColor(n, r, g, b)` with three channel values. -/
  | setPixelColorRGB (n : Nat) (r g b : Nat)
  /-- Call `pixel.show()`. -/
  | pixelShow
  /-- Call `timer.initialize(us)`. -/
  | timerInit (us : Nat)
  /-- Call `timer.setPeriod(us)`. -/
  | timerSetPeriod (us : Nat)
  /-- Call `timer.attachInterrupt(&blinkCallback)`. -/
  | timerAttachInterrupt
  /-- Call `timer.detachInterrupt()`. -/
  | timerDetachInterrupt
  /-- Call `timer.start()`. -/
  | timerStart
  /-- Call `timer.stop()`. -/
  | timerStop
  /-- Assignment `currentCycle = v`. -/
  | writeCurrentCycle (v : Int)
  /-- Assignment `cycleCount = v`. -/
  | writeCycleCount (v : Int)
  /-- Assignment `color = v`. -/
  | writeColor (v : Nat)
  /-- Assignment `timerRunning = b`. -/
  | writeTimerRunning (b : Bool)
  deriving DecidableEq, Repr

/-- Effect of one primitive operation.  The four assignments are the source's; the
calls on `pixel` and `timer` act on the collaborator state as their contract says (the
strip stores a colour per pixel and `show` flushes it; the timer has a period, is
started or stopped, and has a handler attached or not).  The strip has exactly one
pixel (`Adafruit_NeoPixel(1, …)`), so only index 0 is stored. -/
def exec (s : State) : Op → State
  | .pixelBegin => s
  | .setPixelColor n c => if n = 0 then { s with pixelBuffer := c } else s
  | .setPixelColorRGB n r g b => if n = 0 then { s with pixelBuffer := Color r g b } else s
  | .pixelShow => { s with pixelShown := s.pixelBuffer }
  | .timerInit us => { s with timerPeriod := us }
  | .timerSetPeriod us => { s with timerPeriod := us }
  | .timerAttachInterrupt => { s with handlerAttached := true }
  | .timerDetachInterrupt => { s with handlerAttached := false }
  | .timerStart => { s with timerStarted := true }
  | .timerStop => { s with timerStarted := false }
  | .writeCurrentCycle v => { s with currentCycle := v }
  | .writeCycleCount v => { s with cycleCount := v }
  | .writeColor v => { s with color := v }
  | .writeTimerRunning b => { s with timerRunning := b }

/-- Run a list of operations in order. -/
def run (s : State) : List Op → State
  | [] => s
  | op :: ops => run (exec s op) ops

/-- The colours flushed to the LED while running a list of operations: one entry per
`show`, holding the buffer content at that moment. -/
def flushes (s : State) : List Op → List Nat
  | [] => []
  | .pixelShow :: ops => s.pixelBuffer :: flushes (exec s .pixelShow) ops
  | op :: ops => flushes (exec s op) ops

/-! ## The functions of `led.cpp` -/

/-- Function `initLED` (lines 41-47).  `500 * 1000` is an `int` product, evaluated in 16 bits and
then converted to the timer's unsigned microsecond argument. -/
def initLEDOps : List Op :=
  [.pixelBegin, .setPixelColor 0 0, .pixelShow,
   .timerInit (toUInt32 (wrapInt16 (500 * 1000))), .timerStop]

def initLED (s : State) : State := run s initLEDOps

/-- Function `stopTimer` (lines 53-57). -/
def stopTimerOps : List Op :=
  [.timerStop, .timerDetachInterrupt, .writeTimerRunning false]

def stopTimer (s : State) : State := run s stopTimerOps

/-- Function `blinkCallback` (lines 66-88).  `%` is C remainder (truncating); `+= 1` is stored
back into the 16-bit `int`. -/
def blinkCallbackOps (s : State) : List Op :=
  if s.currentCycle < s.cycleCount then
    (if s.currentCycle = 0 ∨ s.currentCycle.tmod 2 = 0 then
      [.setPixelColor 0 s.color]
    else
      [.setPixelColorRGB 0 0 0 0])
    ++ [.pixelShow, .writeCurrentCycle (wrapInt16 (s.currentCycle + 1))]
  else
    stopTimerOps

def blinkCallback (s : State) : State := run s (blinkCallbackOps s)

/-- Function `blinkPixel` (lines 99-112).  `repeatCount` is a `uint8_t` promoted to `int` for
`repeatCount * 2`; `period * 1000` is a `uint32_t` product. -/
def blinkPixelOps (period repeatCount colorP : Nat) : List Op :=
  [.writeCurrentCycle 0, .writeCycleCount (wrapInt16 ((repeatCount : Int) * 2)),
   .writeColor colorP, .timerSetPeriod (period * 1000 % 4294967296),
   .timerAttachInterrupt, .timerStart, .writeTimerRunning true]

def blinkPixel (s : State) (period repeatCount colorP : Nat) : State :=
  run s (blinkPixelOps period repeatCount colorP)

/-- Function `lightPixel` (lines 122-129). -/
def lightPixelOps (s : State) (colorP : Nat) : List Op :=
  (if s.timerRunning then stopTimerOps else [])
    ++ [.setPixelColor 0 colorP, .pixelShow]

def lightPixel (s : State) (colorP : Nat) : State := run s (lightPixelOps s colorP)

/-- Function `makeColor` (lines 140-142). -/
def makeColor (red green blue : Nat) : Nat := Color red green blue

/-! ## Ticks -/

/-- The state after `k` successive invocations of `blinkCallback`. -/
def ticks : Nat → State → State
  | 0, s => s
  | k + 1, s => ticks k (blinkCallback s)

/-- The colours flushed by `k` successive invocations of `blinkCallback`, in order. -/
def tickFlushes : Nat → State → List Nat
  | 0, _ => []
  | k + 1, s => flushes s (blinkCallbackOps s) ++ tickFlushes k (blinkCallback s)

/-- The sequence `c, 0, c, 0, …` of length `n`. -/
def blinkPattern (c : Nat) (n : Nat) : List Nat :=
  (List.range n).map fun k => if k % 2 = 0 then c else 0

/-- Modelled from the spec: the timer subsystem (TimerOne, a library outside this
repository) delivering one tick.  The attached handler `blinkCallback` is invoked only
while the timer is started and a handler is attached; otherwise nothing happens. -/
def timerTick (s : State) : State :=
  if s.timerStarted && s.handlerAttached then blinkCallback s else s

/-- The state after `k` successive timer-delivered ticks. -/
def timerTicks : Nat → State → State
  | 0, s => s
  | k + 1, s => timerTicks k (timerTick s)

/-! ## Call sequences -/

/-- One invocation of a function of `led.cpp`. -/
inductive Call where
  | initLED
  | blinkPixel (period repeatCount colorP : Nat)
  | lightPixel (colorP : Nat)
  | blinkCallback
  deriving DecidableEq, Repr

/-- Effect of one invocation. -/
def Call.apply (s : State) : Call → State
  | .initLED => SLiPoM.initLED s
  | .blinkPixel period repeatCount colorP => SLiPoM.blinkPixel s period repeatCount colorP
  | .lightPixel colorP => SLiPoM.lightPixel s colorP
  | .blinkCallback => SLiPoM.blinkCallback s

/-- Run a sequence of invocations, earliest first. -/
def runCalls (s : State) : List Call → State
  | [] => s
  | call :: calls => runCalls (call.apply s) calls

/-- The argument fits `uint8_t repeatCount`. -/
def Call.repeatCountFits : Call → Prop
  | .blinkPixel _ repeatCount _ => repeatCount ≤ 255
  | _ => True

instance (call : Call) : Decidable call.repeatCountFits := by
  cases call <;> unfold Call.repeatCountFits <;> infer_instance

/-- The `repeatCount` of the most recent `blinkPixel` call, given the one before. -/
def noteRepeatCount (last : Nat) : Call → Nat
  | .blinkPixel _ repeatCount _ => repeatCount
  | _ => last

/-- The `repeatCount` of the most recent `blinkPixel` call of a sequence, 0 if none. -/
def lastRepeatCount (calls : List Call) : Nat := calls.foldl noteRepeatCount 0

/-- What can happen to the controller after `initLED`: a call from the main program or
a tick delivered by the timer. -/
inductive Event where
  | blinkPixel (period repeatCount colorP : Nat)
  | lightPixel (colorP : Nat)
  | tick
  deriving DecidableEq, Repr

/-- Effect of one event. -/
def Event.apply (s : State) : Event → State
  | .blinkPixel period repeatCount colorP => SLiPoM.blinkPixel s period repeatCount colorP
  | .lightPixel colorP => SLiPoM.lightPixel s colorP
  | .tick => timerTick s

/-- Run a sequence of events, earliest first. -/
def runEvents (s : State) : List Event → State
  | [] => s
  | e :: es => runEvents (e.apply s) es

/-! ## Reading a trace -/

/-- The operation writes one of the session fields `currentCycle`, `cycleCount`,
`color`. -/
def Op.isSessionWrite : Op → Bool
  | .writeCurrentCycle _ => true
  | .writeCycleCount _ => true
  | .writeColor _ => true
  | _ => false

/-- In the trace, `timer.stop()` and `timer.detachInterrupt()` both occur before the
first write of a session field. -/
def cancelsBeforeWriting (ops : List Op) : Bool :=
  let before := ops.takeWhile fun op => !op.isSessionWrite
  before.contains .timerStop && before.contains .timerDetachInterrupt

/-! ## A tick preempting `blinkPixel` -/

/-- Execution of `blinkPixel` during which the timer delivers one tick after the first `i`
operations of the call (between two statements of the body, lines 100-111); the rest of
the body runs after the interrupt routine returns. -/
def blinkPixelPreempted (s : State) (i : Nat) (period repeatCount colorP : Nat) : State :=
  run (timerTick (run s ((blinkPixelOps period repeatCount colorP).take i)))
    ((blinkPixelOps period repeatCount colorP).drop i)

/-! ## The door switch (`src/SLiPoM/door.cpp`) -/

/-- Function `isDoorOpen` (lines 26-29).  The argument is the value
`doorSwitch.process(millis())` returns, an `unsigned long` on-time in milliseconds (the
debounce library is outside this repository); it is stored in `unsigned int onTime`, 16
bits wide on the target. -/
def isDoorOpen (processResult : Nat) : Bool :=
  let onTime := processResult % 65536
  !(decide (onTime > 0))

end SLiPoM

/-! # WarpDriveLighting control knob (`src/WarpDriveLighting/ControlKnob.cpp`) -/

namespace WarpDriveLighting

/-- Macro `#define CK_MODE_1 0` of `ControlKnob.h`. -/
def CK_MODE_1 : Nat := 0

/-- Macro `#define CK_MODE_2 1` of `ControlKnob.h`. -/
def CK_MODE_2 : Nat := 1

/-- Arduino level `HIGH`. -/
def HIGH : Bool := true

/-- Arduino level `LOW`. -/
def LOW : Bool := false

/-- The fields of `ControlKnobClass` (`ControlKnob.h`, lines 30-36) together with the
state of the board's digital pins the class writes. -/
structure ControlKnobClass where
  /-- Field `boolean isControlInverted`. -/
  isControlInverted : Bool
  /-- Field `boolean isInControlChangeMode`. -/
  isInControlChangeMode : Bool
  /-- Field `int previousControlValue`. -/
  previousControlValue : Int
  /-- Field `int currentControlValue`. -/
  currentControlValue : Int
  /-- Field `uint8_t currentControlMode`. -/
  currentControlMode : Nat
  /-- Field `uint8_t controlPin`. -/
  controlPin : Nat
  /-- Field `uint8_t signalPins[2]`, as a map from index to entry. -/
  signalPins : Nat → Nat
  /-- Level last written to each digital pin by `digitalWrite` (`true` is `HIGH`). -/
  pinLevel : Nat → Bool
  /-- Pins configured as `OUTPUT` by `pinMode`. -/
  pinIsOutput : Nat → Bool

namespace ControlKnobClass

/-- The pre-instantiated `ControlKnob` (line 111) before `begin`: a global object, all
fields zero, no pin written. -/
def initial : ControlKnobClass :=
  { isControlInverted := false, isInControlChangeMode := false, previousControlValue := 0,
    currentControlValue := 0, currentControlMode := 0, controlPin := 0,
    signalPins := fun _ => 0, pinLevel := fun _ => false, pinIsOutput := fun _ => false }

/-- Arduino `digitalWrite(pin, level)`. -/
def digitalWrite (k : ControlKnobClass) (pin : Nat) (level : Bool) : ControlKnobClass :=
  { k with pinLevel := Function.update k.pinLevel pin level }

/-- Arduino `pinMode(pin, OUTPUT)` (`output = true`) or `pinMode(pin, INPUT)`. -/
def pinMode (k : ControlKnobClass) (pin : Nat) (output : Bool) : ControlKnobClass :=
  { k with pinIsOutput := Function.update k.pinIsOutput pin output }

/-- Method `readControlValue` (lines 84-92).  `analog` is the value
`analogRead(this->controlPin)` returns at this call; `1023 - controlValue` is an `int`
difference. -/
def readControlValue (k : ControlKnobClass) (analog : Int) : Int :=
  let controlValue := analog
  if k.isControlInverted then SLiPoM.wrapInt16 (1023 - controlValue) else controlValue

/-- Method `getCurrentControlMode` (lines 94-97). -/
def getCurrentControlMode (k : ControlKnobClass) : Nat := k.currentControlMode

/-- Method `refreshModeDisplay` (lines 103-108). -/
def refreshModeDisplay (k : ControlKnobClass) : ControlKnobClass :=
  let k1 := k.digitalWrite (k.signalPins CK_MODE_1) LOW
  let k2 := k1.digitalWrite (k1.signalPins CK_MODE_2) LOW
  k2.digitalWrite (k2.signalPins k2.currentControlMode) HIGH

/-- Method `checkForNewControlMode` (lines 42-76), with the reading `analogRead` delivers
at this call.  The result pairs the object after the call with the value returned: the
body of the `int` function ends after `delay(10)` without a `return` statement, so no
value is returned (`none`).  `delay(10)` has no effect on the state. -/
def checkForNewControlMode (k : ControlKnobClass) (analog : Int) :
    ControlKnobClass × Option Int :=
  let k1 := { k with currentControlValue := k.readControlValue analog }
  let k2 :=
    if k1.currentControlValue ≥ 1015 ∧ k1.previousControlValue < 1015 then
      let a := k1.digitalWrite (k1.signalPins CK_MODE_1) HIGH
      let b := a.digitalWrite (a.signalPins CK_MODE_2) HIGH
      { b with isInControlChangeMode := true }
    else if k1.currentControlValue < 1015 ∧ k1.previousControlValue ≥ 1015 then
      let a :=
        if k1.currentControlMode = CK_MODE_1 then
          { k1 with currentControlMode := CK_MODE_2 }
        else
          { k1 with currentControlMode := CK_MODE_1 }
      { a with isInControlChangeMode := false }
    else k1
  let k3 := { k2 with previousControlValue := k2.currentControlValue }
  let k4 := k3.refreshModeDisplay
  (k4, none)

/-- Method `begin` (lines 16-30), with the reading `analogRead` delivers to the
`checkForNewControlMode` call it ends with. -/
def begin (k : ControlKnobClass) (controlPin mode1SignalPin mode2SignalPin : Nat)
    (invertControl : Bool) (analog : Int) : ControlKnobClass :=
  let k1 := { k with signalPins := Function.update k.signalPins CK_MODE_1 mode1SignalPin }
  let k2 := { k1 with signalPins := Function.update k1.signalPins CK_MODE_2 mode2SignalPin }
  let k3 := { k2 with isControlInverted := invertControl }
  let k4 := { k3 with controlPin := controlPin }
  let k5 := { k4 with currentControlMode := CK_MODE_1 }
  let k6 := { k5 with previousControlValue := 0 }
  let k7 := k6.pinMode controlPin false
  let k8 := k7.pinMode (k7.signalPins CK_MODE_1) true
  let k9 := k8.pinMode (k8.signalPins CK_MODE_2) true
  (k9.checkForNewControlMode analog).1

/-- The object after a sequence of `checkForNewControlMode` calls, one per reading,
earliest first. -/
def runChecks (k : ControlKnobClass) : List Int → ControlKnobClass
  | [] => k
  | analog :: rest => runChecks (k.checkForNewControlMode analog).1 rest

end ControlKnobClass

/-! ## Reading a sequence of knob values -/

/-- The knob rose to the threshold or above and fell below it again: the earlier value
is at least 1015 and the later one is below 1015. -/
def isFall (earlier later : Int) : Bool := decide (earlier ≥ 1015 ∧ later < 1015)

/-- The number of falls between consecutive values of a sequence. -/
def countFalls : List Int → Nat
  | earlier :: later :: rest =>
    (if isFall earlier later then 1 else 0) + countFalls (later :: rest)
  | _ => 0

/-- The respective other control mode. -/
def otherMode (mode : Nat) : Nat := if mode = CK_MODE_1 then CK_MODE_2 else CK_MODE_1

end WarpDriveLighting

namespace SLiPoM

/-! ## Helper lemmas -/

theorem Color_black : Color 0 0 0 = 0 := by decide

theorem wrapInt16_id {x : Int} (h1 : -32768 ≤ x) (h2 : x ≤ 32767) : wrapInt16 x = x := by
  unfold wrapInt16; omega

theorem onPhase_iff {x : Int} (h : 0 ≤ x) : (x = 0 ∨ x.tmod 2 = 0) ↔ x % 2 = 0 := by
  rw [Int.tmod_eq_emod h (by decide)]; omega

/-- A tick inside the session: the pixel is set and flushed, the counter advances. -/
theorem blinkCallback_lt (s : State) (h0 : 0 ≤ s.currentCycle)
    (h : s.currentCycle < s.cycleCount) (hM : s.cycleCount ≤ 32767) :
    blinkCallback s =
      { s with
        pixelBuffer := if s.currentCycle % 2 = 0 then s.color else 0
        pixelShown := if s.currentCycle % 2 = 0 then s.color else 0
        currentCycle := s.currentCycle + 1 } ∧
    flushes s (blinkCallbackOps s) = [if s.currentCycle % 2 = 0 then s.color else 0] := by
  have hw : wrapInt16 (s.currentCycle + 1) = s.currentCycle + 1 :=
    wrapInt16_id (by omega) (by omega)
  by_cases hp : s.currentCycle % 2 = 0
  · have hp2 : s.currentCycle = 0 ∨ s.currentCycle.tmod 2 = 0 := (onPhase_iff h0).2 hp
    simp [blinkCallback, blinkCallbackOps, h, hp, hp2, run, exec, flushes, hw]
  · have hp2 : ¬ (s.currentCycle = 0 ∨ s.currentCycle.tmod 2 = 0) :=
      fun hc => hp ((onPhase_iff h0).1 hc)
    simp [blinkCallback, blinkCallbackOps, h, hp, hp2, run, exec, flushes, hw, Color_black]

/-- A tick at or past the cycle limit: nothing is flushed, the timer is stopped. -/
theorem blinkCallback_ge (s : State) (h : ¬ s.currentCycle < s.cycleCount) :
    blinkCallback s =
      { s with timerStarted := false, handlerAttached := false, timerRunning := false } ∧
    flushes s (blinkCallbackOps s) = [] := by
  simp [blinkCallback, blinkCallbackOps, h, stopTimerOps, run, exec, flushes]

theorem ticks_succ (k : Nat) (s : State) : ticks (k + 1) s = blinkCallback (ticks k s) := by
  induction k generalizing s with
  | zero => rfl
  | succ k ih => exact ih (blinkCallback s)

theorem tickFlushes_succ (k : Nat) (s : State) :
    tickFlushes (k + 1) s =
      tickFlushes k s ++ flushes (ticks k s) (blinkCallbackOps (ticks k s)) := by
  induction k generalizing s with
  | zero => simp [tickFlushes, ticks]
  | succ k ih =>
    have := ih (blinkCallback s)
    simp only [tickFlushes, ticks] at this ⊢
    rw [this, List.append_assoc]

theorem blinkPattern_succ (c n : Nat) :
    blinkPattern c (n + 1) = blinkPattern c n ++ [if n % 2 = 0 then c else 0] := by
  simp [blinkPattern, List.range_succ]

/-- The fields written by `blinkPixel`, for an 8-bit repeat count. -/
theorem blinkPixel_eq (s : State) (period N c : Nat) (hN : N ≤ 255) :
    blinkPixel s period N c =
      { s with
        currentCycle := 0, cycleCount := 2 * (N : Int), color := c,
        timerPeriod := period * 1000 % 4294967296,
        handlerAttached := true, timerStarted := true, timerRunning := true } := by
  have hw : wrapInt16 ((N : Int) * 2) = 2 * (N : Int) := by
    rw [wrapInt16_id (by omega) (by omega)]; ring
  simp [blinkPixel, blinkPixelOps, run, exec, hw]

/-- The session fields after `k` ticks of a session started by `blinkPixel`. -/
theorem session_fields (s : State) (period N c : Nat) (hN : N ≤ 255) (k : Nat) :
    (ticks k (blinkPixel s period N c)).currentCycle = (min k (2 * N) : Nat) ∧
    (ticks k (blinkPixel s period N c)).cycleCount = 2 * (N : Int) ∧
    (ticks k (blinkPixel s period N c)).color = c := by
  induction k with
  | zero => simp [ticks, blinkPixel_eq s period N c hN]
  | succ k ih =>
    obtain ⟨h1, h2, h3⟩ := ih
    rw [ticks_succ]
    by_cases hk : k < 2 * N
    · have hlt : (ticks k (blinkPixel s period N c)).currentCycle
          < (ticks k (blinkPixel s period N c)).cycleCount := by rw [h1, h2]; omega
      rw [(blinkCallback_lt _ (by rw [h1]; omega) hlt (by rw [h2]; omega)).1]
      simp only [h1, h2, h3]
      refine ⟨?_, trivial, trivial⟩
      omega
    · have hge : ¬ (ticks k (blinkPixel s period N c)).currentCycle
          < (ticks k (blinkPixel s period N c)).cycleCount := by rw [h1, h2]; omega
      rw [(blinkCallback_ge _ hge).1]
      simp only [h1, h2, h3]
      refine ⟨?_, trivial, trivial⟩
      omega

/-- What the tick numbered `k` (from 0) of a session flushes. -/
theorem session_tick_flush (s : State) (period N c : Nat) (hN : N ≤ 255) (k : Nat) :
    flushes (ticks k (blinkPixel s period N c))
        (blinkCallbackOps (ticks k (blinkPixel s period N c))) =
      if k < 2 * N then [if k % 2 = 0 then c else 0] else [] := by
  obtain ⟨h1, h2, h3⟩ := session_fields s period N c hN k
  by_cases hk : k < 2 * N
  · have hlt : (ticks k (blinkPixel s period N c)).currentCycle
        < (ticks k (blinkPixel s period N c)).cycleCount := by rw [h1, h2]; omega
    rw [(blinkCallback_lt _ (by rw [h1]; omega) hlt (by rw [h2]; omega)).2, h1, h3, if_pos hk]
    have hmin : min k (2 * N) = k := by omega
    rw [hmin]
    by_cases hp : k % 2 = 0
    · have : ((k : Nat) : Int) % 2 = 0 := by omega
      simp [hp, this]
    · have : ¬ ((k : Nat) : Int) % 2 = 0 := by omega
      simp [hp, this]
  · have hge : ¬ (ticks k (blinkPixel s period N c)).currentCycle
        < (ticks k (blinkPixel s period N c)).cycleCount := by rw [h1, h2]; omega
    rw [(blinkCallback_ge _ hge).2, if_neg hk]

/-- The colours flushed by the first `k` ticks of a session. -/
theorem session_flushes (s : State) (period N c : Nat) (hN : N ≤ 255) (k : Nat) :
    tickFlushes k (blinkPixel s period N c) = blinkPattern c (min k (2 * N)) := by
  induction k with
  | zero => simp [tickFlushes, blinkPattern]
  | succ k ih =>
    rw [tickFlushes_succ, ih, session_tick_flush s period N c hN k]
    by_cases hk : k < 2 * N
    · have e1 : min k (2 * N) = k := by omega
      have e2 : min (k + 1) (2 * N) = k + 1 := by omega
      rw [if_pos hk, e1, e2, blinkPattern_succ]
    · have e1 : min k (2 * N) = 2 * N := by omega
      have e2 : min (k + 1) (2 * N) = 2 * N := by omega
      rw [if_neg hk, e1, e2, List.append_nil]

/-- Ticks past the cycle limit leave the pixel alone. -/
theorem session_pixel_after (s : State) (period N c : Nat) (hN : N ≤ 255) (d : Nat) :
    (ticks (2 * N + d) (blinkPixel s period N c)).pixelShown
      = (ticks (2 * N) (blinkPixel s period N c)).pixelShown ∧
    (ticks (2 * N + d) (blinkPixel s period N c)).pixelBuffer
      = (ticks (2 * N) (blinkPixel s period N c)).pixelBuffer := by
  induction d with
  | zero => exact ⟨rfl, rfl⟩
  | succ d ih =>
    obtain ⟨h1, h2, _⟩ := session_fields s period N c hN (2 * N + d)
    have hge : ¬ (ticks (2 * N + d) (blinkPixel s period N c)).currentCycle
        < (ticks (2 * N + d) (blinkPixel s period N c)).cycleCount := by rw [h1, h2]; omega
    rw [← Nat.add_assoc, ticks_succ, (blinkCallback_ge _ hge).1]
    exact ih

/-! ## Claims -/

/-- C1: after `blinkPixel(period, N, c)` with an 8-bit repeat count `N` (in particular
`1 ≤ N ≤ 255`), from any prior state, the tick numbered `k` (from 0) flushes `c` when
`k < 2N` is even, black (0) when `k < 2N` is odd and nothing when `k ≥ 2N`; so the
flushed sequence of the first `2N` ticks is `c, 0, c, 0, …` of length exactly `2N`, and
any number of further ticks adds no flush and leaves the pixel (buffer and displayed
colour) as it was after tick `2N`. -/
theorem C1_blink_sequence (s : State) (period N c : Nat) (hN : N ≤ 255) :
    (∀ k, flushes (ticks k (blinkPixel s period N c))
            (blinkCallbackOps (ticks k (blinkPixel s period N c))) =
          if k < 2 * N then [if k % 2 = 0 then c else 0] else []) ∧
    tickFlushes (2 * N) (blinkPixel s period N c) = blinkPattern c (2 * N) ∧
    (tickFlushes (2 * N) (blinkPixel s period N c)).length = 2 * N ∧
    (∀ d, tickFlushes (2 * N + d) (blinkPixel s period N c) = blinkPattern c (2 * N) ∧
          (ticks (2 * N + d) (blinkPixel s period N c)).pixelShown
            = (ticks (2 * N) (blinkPixel s period N c)).pixelShown ∧
          (ticks (2 * N + d) (blinkPixel s period N c)).pixelBuffer
            = (ticks (2 * N) (blinkPixel s period N c)).pixelBuffer) := by
  refine ⟨session_tick_flush s period N c hN, ?_, ?_, ?_⟩
  · rw [session_flushes s period N c hN, Nat.min_self]
  · rw [session_flushes s period N c hN, Nat.min_self]
    simp [blinkPattern]
  · intro d
    refine ⟨?_, session_pixel_after s period N c hN d⟩
    rw [session_flushes s period N c hN]
    have : min (2 * N + d) (2 * N) = 2 * N := by omega
    rw [this]

theorem C1_blink_sequence_witness :
    tickFlushes (2 * 3) (blinkPixel powerOn 500 3 16711680)
      = [16711680, 0, 16711680, 0, 16711680, 0] ∧
    (∀ d, tickFlushes (2 * 3 + d) (blinkPixel powerOn 500 3 16711680)
        = [16711680, 0, 16711680, 0, 16711680, 0]) := by
  have h := C1_blink_sequence powerOn 500 3 16711680 (by decide)
  exact ⟨h.2.1, fun d => (h.2.2.2 d).1⟩

/-! ### Timer flags -/

/-- While the cycle limit is not passed, the timer of a session keeps running. -/
theorem session_timer (s : State) (period N c : Nat) (hN : N ≤ 255) (k : Nat)
    (hk : k ≤ 2 * N) :
    (ticks k (blinkPixel s period N c)).timerRunning = true ∧
    (ticks k (blinkPixel s period N c)).timerStarted = true ∧
    (ticks k (blinkPixel s period N c)).handlerAttached = true := by
  induction k with
  | zero => simp [ticks, blinkPixel_eq s period N c hN]
  | succ k ih =>
    obtain ⟨h1, h2, _⟩ := session_fields s period N c hN k
    have hlt : (ticks k (blinkPixel s period N c)).currentCycle
        < (ticks k (blinkPixel s period N c)).cycleCount := by rw [h1, h2]; omega
    rw [ticks_succ, (blinkCallback_lt _ (by rw [h1]; omega) hlt (by rw [h2]; omega)).1]
    exact ih (by omega)

/-- Once stopped at the cycle limit, a further tick changes nothing. -/
theorem blinkCallback_stopped (s : State) (h : ¬ s.currentCycle < s.cycleCount) :
    blinkCallback (blinkCallback s) = blinkCallback s := by
  have e := (blinkCallback_ge s h).1
  have h2 : ¬ (blinkCallback s).currentCycle < (blinkCallback s).cycleCount := by
    rw [e]; exact h
  rw [(blinkCallback_ge _ h2).1, e]

/-- C2 (as amended): after `blinkPixel(period, N, c)` and exactly `2N` ticks the
controller is still Blinking (`timerRunning` true, timer started, handler attached);
the tick numbered `2N + 1` flushes nothing, leaves all other fields as they were and
stops the timer, detaches the handler and clears `timerRunning`; every tick after it
leaves the whole state unchanged. -/
theorem C2_idle_after_extra_tick (s : State) (period N c : Nat) (hN : N ≤ 255) :
    ((ticks (2 * N) (blinkPixel s period N c)).timerRunning = true ∧
     (ticks (2 * N) (blinkPixel s period N c)).timerStarted = true ∧
     (ticks (2 * N) (blinkPixel s period N c)).handlerAttached = true) ∧
    flushes (ticks (2 * N) (blinkPixel s period N c))
      (blinkCallbackOps (ticks (2 * N) (blinkPixel s period N c))) = [] ∧
    ticks (2 * N + 1) (blinkPixel s period N c) =
      { ticks (2 * N) (blinkPixel s period N c) with
        timerStarted := false, handlerAttached := false, timerRunning := false } ∧
    (∀ d, ticks (2 * N + 1 + d) (blinkPixel s period N c)
        = ticks (2 * N + 1) (blinkPixel s period N c)) := by
  obtain ⟨h1, h2, _⟩ := session_fields s period N c hN (2 * N)
  have hge : ¬ (ticks (2 * N) (blinkPixel s period N c)).currentCycle
      < (ticks (2 * N) (blinkPixel s period N c)).cycleCount := by rw [h1, h2]; omega
  refine ⟨session_timer s period N c hN (2 * N) (Nat.le_refl _),
    (blinkCallback_ge _ hge).2, ?_, ?_⟩
  · rw [ticks_succ, (blinkCallback_ge _ hge).1]
  · intro d
    induction d with
    | zero => rfl
    | succ d ih =>
      rw [← Nat.add_assoc, ticks_succ, ih, ticks_succ]
      exact blinkCallback_stopped _ hge

theorem C2_idle_after_extra_tick_witness :
    (ticks (2 * 3) (blinkPixel (initLED powerOn) 500 3 (makeColor 255 0 0))).timerRunning
      = true ∧
    (∀ d, ticks (2 * 3 + 1 + d) (blinkPixel (initLED powerOn) 500 3 (makeColor 255 0 0))
        = ticks (2 * 3 + 1) (blinkPixel (initLED powerOn) 500 3 (makeColor 255 0 0))) := by
  have h := C2_idle_after_extra_tick (initLED powerOn) 500 3 (makeColor 255 0 0) (by decide)
  exact ⟨h.1.1, h.2.2.2⟩

/-- C2 fails as stated: after `blinkPixel(500, 3, red)` from the initialised state and
exactly 6 ticks, `timerRunning` is still true, the timer is still started with the
handler attached, and the 7th tick changes the state. -/
theorem C2_not_idle_after_6_ticks :
    (ticks 6 (blinkPixel (initLED powerOn) 500 3 (makeColor 255 0 0))).timerRunning = true ∧
    (ticks 6 (blinkPixel (initLED powerOn) 500 3 (makeColor 255 0 0))).timerStarted = true ∧
    (ticks 6 (blinkPixel (initLED powerOn) 500 3 (makeColor 255 0 0))).handlerAttached
      = true ∧
    blinkCallback (ticks 6 (blinkPixel (initLED powerOn) 500 3 (makeColor 255 0 0)))
      ≠ ticks 6 (blinkPixel (initLED powerOn) 500 3 (makeColor 255 0 0)) := by
  refine ⟨by decide, by decide, by decide, fun h => ?_⟩
  exact absurd (congrArg State.timerRunning h) (by decide)

/-- C3: after `blinkPixel(period, 0, c)` from any state the timer is started; the first
tick performs exactly `stopTimer` (no `setPixelColor`, no `show`), so it flushes
nothing and leaves the timer stopped, the handler detached and `timerRunning` false;
no number of ticks of this session flushes anything or changes the pixel. -/
theorem C3_zero_repeat (s : State) (period c : Nat) :
    (blinkPixel s period 0 c).timerStarted = true ∧
    blinkCallbackOps (blinkPixel s period 0 c) = stopTimerOps ∧
    flushes (blinkPixel s period 0 c) (blinkCallbackOps (blinkPixel s period 0 c)) = [] ∧
    ((ticks 1 (blinkPixel s period 0 c)).timerStarted = false ∧
     (ticks 1 (blinkPixel s period 0 c)).handlerAttached = false ∧
     (ticks 1 (blinkPixel s period 0 c)).timerRunning = false) ∧
    (∀ k, tickFlushes k (blinkPixel s period 0 c) = [] ∧
          (ticks k (blinkPixel s period 0 c)).pixelShown = s.pixelShown ∧
          (ticks k (blinkPixel s period 0 c)).pixelBuffer = s.pixelBuffer) := by
  have hs := blinkPixel_eq s period 0 c (by decide)
  have hge : ¬ (blinkPixel s period 0 c).currentCycle < (blinkPixel s period 0 c).cycleCount := by
    rw [hs]; simp
  refine ⟨by rw [hs], ?_, (blinkCallback_ge _ hge).2, ?_, ?_⟩
  · simp [blinkCallbackOps, hge]
  · simp only [ticks]
    rw [(blinkCallback_ge _ hge).1]
    exact ⟨rfl, rfl, rfl⟩
  · intro k
    refine ⟨?_, ?_⟩
    · rw [session_flushes s period 0 c (by decide)]
      simp [blinkPattern]
    · have h := session_pixel_after s period 0 c (by decide) k
      simp only [Nat.mul_zero, Nat.zero_add, ticks] at h
      rw [h.1, h.2, hs]
      exact ⟨rfl, rfl⟩

/-- A tick keeps the three "running" flags in agreement. -/
theorem blinkCallback_flags (s : State)
    (h : s.timerStarted = s.timerRunning ∧ s.handlerAttached = s.timerRunning) :
    (blinkCallback s).timerStarted = (blinkCallback s).timerRunning ∧
    (blinkCallback s).handlerAttached = (blinkCallback s).timerRunning := by
  simp only [blinkCallback, blinkCallbackOps]
  split_ifs <;> simp [run, exec, stopTimerOps, h]

theorem ticks_flags (k : Nat) (s : State)
    (h : s.timerStarted = s.timerRunning ∧ s.handlerAttached = s.timerRunning) :
    (ticks k s).timerStarted = (ticks k s).timerRunning ∧
    (ticks k s).handlerAttached = (ticks k s).timerRunning := by
  induction k generalizing s with
  | zero => exact h
  | succ k ih => exact ih _ (blinkCallback_flags s h)

theorem blinkPixel_flags (s : State) (period N c : Nat) :
    (blinkPixel s period N c).timerStarted = true ∧
    (blinkPixel s period N c).handlerAttached = true ∧
    (blinkPixel s period N c).timerRunning = true := by
  simp [blinkPixel, blinkPixelOps, run, exec]

/-- The state `lightPixel` leaves: the pixel set and shown; if `timerRunning` was set,
the timer stopped as well. -/
theorem lightPixel_eq (s : State) (c : Nat) :
    lightPixel s c =
      if s.timerRunning then
        { s with timerStarted := false, handlerAttached := false, timerRunning := false,
                 pixelBuffer := c, pixelShown := c }
      else { s with pixelBuffer := c, pixelShown := c } := by
  cases h : s.timerRunning <;> simp [lightPixel, lightPixelOps, stopTimerOps, run, exec, h]

theorem lightPixel_flags (s : State) (c : Nat)
    (h : s.timerStarted = s.timerRunning ∧ s.handlerAttached = s.timerRunning) :
    (lightPixel s c).timerStarted = false ∧ (lightPixel s c).handlerAttached = false ∧
    (lightPixel s c).timerRunning = false := by
  rw [lightPixel_eq]
  cases hr : s.timerRunning
  · simp [h.1, h.2, hr]
  · simp

/-- C4: in every state, `lightPixel(c)` leaves the pixel holding `c`, flushes exactly
`c`, and leaves `timerRunning` false; if `timerRunning` was true, the timer is stopped
and the handler detached.  In particular `lightPixel(0)` after `blinkPixel` and any
number `k` of ticks leaves `timerRunning` false, the timer stopped, the handler
detached and the pixel showing 0. -/
theorem C4_lightPixel_cancels (s : State) (c : Nat) :
    ((lightPixel s c).pixelBuffer = c ∧ (lightPixel s c).pixelShown = c ∧
     flushes s (lightPixelOps s c) = [c]) ∧
    (lightPixel s c).timerRunning = false ∧
    (s.timerRunning = true →
      (lightPixel s c).timerStarted = false ∧ (lightPixel s c).handlerAttached = false) ∧
    (∀ (period N c0 k : Nat),
      (lightPixel (ticks k (blinkPixel s period N c0)) 0).timerRunning = false ∧
      (lightPixel (ticks k (blinkPixel s period N c0)) 0).timerStarted = false ∧
      (lightPixel (ticks k (blinkPixel s period N c0)) 0).handlerAttached = false ∧
      (lightPixel (ticks k (blinkPixel s period N c0)) 0).pixelShown = 0) := by
  refine ⟨⟨?_, ?_, ?_⟩, ?_, ?_, ?_⟩
  · rw [lightPixel_eq]; split_ifs <;> rfl
  · rw [lightPixel_eq]; split_ifs <;> rfl
  · cases h : s.timerRunning <;> simp [lightPixelOps, stopTimerOps, flushes, exec, h]
  · rw [lightPixel_eq]; cases h : s.timerRunning <;> simp
  · intro h
    rw [lightPixel_eq]; simp [h]
  · intro period N c0 k
    have hb := blinkPixel_flags s period N c0
    have hf := lightPixel_flags (ticks k (blinkPixel s period N c0)) 0
      (ticks_flags k _ ⟨by rw [hb.1, hb.2.2], by rw [hb.2.1, hb.2.2]⟩)
    refine ⟨hf.2.2, hf.1, hf.2.1, ?_⟩
    rw [lightPixel_eq]; split_ifs <;> rfl

theorem C4_lightPixel_cancels_witness :
    (ticks 3 (blinkPixel (initLED powerOn) 500 3 16711680)).timerRunning = true ∧
    (lightPixel (ticks 3 (blinkPixel (initLED powerOn) 500 3 16711680)) 0).timerStarted
      = false ∧
    (lightPixel (ticks 3 (blinkPixel (initLED powerOn) 500 3 16711680)) 0).pixelShown = 0 :=
  ⟨by decide,
   ((C4_lightPixel_cancels (ticks 3 (blinkPixel (initLED powerOn) 500 3 16711680)) 0).2.2.1
      (by decide)).1,
   (C4_lightPixel_cancels (ticks 3 (blinkPixel (initLED powerOn) 500 3 16711680)) 0).1.2.1⟩

/-- C5: from every prior state `s`, `blinkPixel(period, N, c)` with an 8-bit `N` yields
`currentCycle = 0`, `cycleCount = 2N`, `color = c`, handler attached, timer started and
`timerRunning = true`, and leaves the pixel (buffer and displayed colour) unchanged.
These fields and the programmed period are the same from any other prior state `s2`,
and so are the colours flushed by every later tick. -/
theorem C5_blinkPixel_restart (s s2 : State) (period N c : Nat) (hN : N ≤ 255) :
    ((blinkPixel s period N c).currentCycle = 0 ∧
     (blinkPixel s period N c).cycleCount = 2 * (N : Int) ∧
     (blinkPixel s period N c).color = c ∧
     (blinkPixel s period N c).handlerAttached = true ∧
     (blinkPixel s period N c).timerStarted = true ∧
     (blinkPixel s period N c).timerRunning = true) ∧
    ((blinkPixel s period N c).pixelShown = s.pixelShown ∧
     (blinkPixel s period N c).pixelBuffer = s.pixelBuffer) ∧
    ((blinkPixel s period N c).currentCycle = (blinkPixel s2 period N c).currentCycle ∧
     (blinkPixel s period N c).cycleCount = (blinkPixel s2 period N c).cycleCount ∧
     (blinkPixel s period N c).color = (blinkPixel s2 period N c).color ∧
     (blinkPixel s period N c).timerPeriod = (blinkPixel s2 period N c).timerPeriod ∧
     (blinkPixel s period N c).handlerAttached = (blinkPixel s2 period N c).handlerAttached ∧
     (blinkPixel s period N c).timerStarted = (blinkPixel s2 period N c).timerStarted ∧
     (blinkPixel s period N c).timerRunning = (blinkPixel s2 period N c).timerRunning) ∧
    (∀ k, tickFlushes k (blinkPixel s period N c) = tickFlushes k (blinkPixel s2 period N c) ∧
          flushes (ticks k (blinkPixel s period N c))
              (blinkCallbackOps (ticks k (blinkPixel s period N c)))
            = flushes (ticks k (blinkPixel s2 period N c))
              (blinkCallbackOps (ticks k (blinkPixel s2 period N c)))) := by
  refine ⟨?_, ?_, ?_, ?_⟩
  · rw [blinkPixel_eq s period N c hN]; exact ⟨rfl, rfl, rfl, rfl, rfl, rfl⟩
  · rw [blinkPixel_eq s period N c hN]; exact ⟨rfl, rfl⟩
  · rw [blinkPixel_eq s period N c hN, blinkPixel_eq s2 period N c hN]
    exact ⟨rfl, rfl, rfl, rfl, rfl, rfl, rfl⟩
  · intro k
    rw [session_flushes s period N c hN, session_flushes s2 period N c hN,
      session_tick_flush s period N c hN, session_tick_flush s2 period N c hN]
    exact ⟨rfl, rfl⟩

theorem C5_blinkPixel_restart_witness :
    (blinkPixel (ticks 3 (blinkPixel powerOn 250 5 255)) 500 3 16711680).cycleCount = 6 ∧
    tickFlushes 7 (blinkPixel (ticks 3 (blinkPixel powerOn 250 5 255)) 500 3 16711680)
      = tickFlushes 7 (blinkPixel (initLED powerOn) 500 3 16711680) := by
  have h := C5_blinkPixel_restart (ticks 3 (blinkPixel powerOn 250 5 255)) (initLED powerOn)
    500 3 16711680 (by decide)
  exact ⟨h.1.2.1, (h.2.2.2 7).1⟩

/-- C6: the code breaks the claim.  With a session running (two ticks into
`blinkPixel(250, 5, 255)`), `blinkPixel(500, 3, 16711680)` performs, in this order,
`currentCycle = 0`, `cycleCount = 6`, `color = 16711680`, `setPeriod`,
`attachInterrupt`, `start`, `timerRunning = true`: `stop` and `detachInterrupt` do not
precede the first field write, they do not occur at all.  The write `currentCycle = 0`
happens with the timer started and the handler attached, and a tick delivered right
after it runs `blinkCallback` and flushes the old colour 255.  In the same state the
sibling `lightPixel` does run `stopTimer` (stop, detach) before it touches the pixel.
For all arguments the trace of `blinkPixel` has no `stop` and no `detachInterrupt`, and
a timer that runs with its handler attached keeps doing so after every prefix of the
trace. -/
theorem C6_blinkPixel_does_not_cancel_first :
    ((ticks 2 (blinkPixel (initLED powerOn) 250 5 255)).timerRunning = true ∧
     blinkPixelOps 500 3 16711680 =
       [.writeCurrentCycle 0, .writeCycleCount 6, .writeColor 16711680,
        .timerSetPeriod 500000, .timerAttachInterrupt, .timerStart,
        .writeTimerRunning true] ∧
     cancelsBeforeWriting (blinkPixelOps 500 3 16711680) = false) ∧
    ((exec (ticks 2 (blinkPixel (initLED powerOn) 250 5 255))
        (Op.writeCurrentCycle 0)).timerStarted = true ∧
     (exec (ticks 2 (blinkPixel (initLED powerOn) 250 5 255))
        (Op.writeCurrentCycle 0)).handlerAttached = true ∧
     timerTick (exec (ticks 2 (blinkPixel (initLED powerOn) 250 5 255))
        (Op.writeCurrentCycle 0))
       = blinkCallback (exec (ticks 2 (blinkPixel (initLED powerOn) 250 5 255))
          (Op.writeCurrentCycle 0)) ∧
     flushes (exec (ticks 2 (blinkPixel (initLED powerOn) 250 5 255))
          (Op.writeCurrentCycle 0))
        (blinkCallbackOps (exec (ticks 2 (blinkPixel (initLED powerOn) 250 5 255))
          (Op.writeCurrentCycle 0))) = [255]) ∧
    (lightPixelOps (ticks 2 (blinkPixel (initLED powerOn) 250 5 255)) 16711680
       = [.timerStop, .timerDetachInterrupt, .writeTimerRunning false,
          .setPixelColor 0 16711680, .pixelShow]) ∧
    (∀ period N c : Nat,
      Op.timerStop ∉ blinkPixelOps period N c ∧
      Op.timerDetachInterrupt ∉ blinkPixelOps period N c ∧
      cancelsBeforeWriting (blinkPixelOps period N c) = false ∧
      (blinkPixelOps period N c).head? = some (Op.writeCurrentCycle 0)) ∧
    (∀ (s : State) (period N c i : Nat),
      s.timerStarted = true → s.handlerAttached = true →
      (run s ((blinkPixelOps period N c).take i)).timerStarted = true ∧
      (run s ((blinkPixelOps period N c).take i)).handlerAttached = true) := by
  refine ⟨⟨by decide, by decide, by decide⟩, ⟨by decide, by decide, ?_, by decide⟩,
    by decide, ?_, ?_⟩
  · have h1 : (exec (ticks 2 (blinkPixel (initLED powerOn) 250 5 255))
        (Op.writeCurrentCycle 0)).timerStarted = true := by decide
    have h2 : (exec (ticks 2 (blinkPixel (initLED powerOn) 250 5 255))
        (Op.writeCurrentCycle 0)).handlerAttached = true := by decide
    simp [timerTick, h1, h2]
  · intro period N c
    refine ⟨by simp [blinkPixelOps], by simp [blinkPixelOps], ?_, rfl⟩
    simp [cancelsBeforeWriting, blinkPixelOps, Op.isSessionWrite]
  · intro s period N c i h1 h2
    rcases i with _ | _ | _ | _ | _ | _ | _ | i <;>
      simp [blinkPixelOps, run, exec, h1, h2]

/-- C7 (as amended): for every `period ≤ 4294967` (milliseconds), the one `setPeriod`
call of `blinkPixel` receives exactly `period * 1000` microseconds, and that is the
period the timer is left programmed with. -/
theorem C7_period_in_range (s : State) (period N c : Nat) (h : period ≤ 4294967) :
    Op.timerSetPeriod (period * 1000) ∈ blinkPixelOps period N c ∧
    (∀ us, Op.timerSetPeriod us ∈ blinkPixelOps period N c → us = period * 1000) ∧
    (blinkPixel s period N c).timerPeriod = period * 1000 := by
  have hm : period * 1000 % 4294967296 = period * 1000 := Nat.mod_eq_of_lt (by omega)
  refine ⟨by simp [blinkPixelOps, hm], ?_, by simp [blinkPixel, blinkPixelOps, run, exec, hm]⟩
  intro us hus
  simp [blinkPixelOps, hm] at hus
  exact hus

theorem C7_period_in_range_witness :
    (blinkPixel powerOn 4294967 1 0).timerPeriod = 4294967 * 1000 :=
  (C7_period_in_range powerOn 4294967 1 0 (by decide)).2.2

/-- C7 fails as stated: for the 32-bit period 4294968 ms the product wraps, and
`blinkPixel` passes 704 microseconds to `setPeriod` instead of 4294968000. -/
theorem C7_period_wraps :
    4294968 < 4294967296 ∧
    Op.timerSetPeriod 704 ∈ blinkPixelOps 4294968 1 0 ∧
    (blinkPixel powerOn 4294968 1 0).timerPeriod = 704 ∧
    (blinkPixel powerOn 4294968 1 0).timerPeriod ≠ 4294968 * 1000 := by
  refine ⟨by decide, by decide, by decide, by decide⟩

/-! ### Call sequences -/

theorem blinkCallback_cycleCount (s : State) :
    (blinkCallback s).cycleCount = s.cycleCount := by
  simp only [blinkCallback, blinkCallbackOps]
  split_ifs <;> simp [run, exec, stopTimerOps]

/-- Only `blinkPixel` writes `cycleCount`, and it writes twice its repeat count. -/
theorem apply_cycleCount (s : State) (last : Nat) (call : Call)
    (hs : s.cycleCount = 2 * (last : Int)) (h : call.repeatCountFits) :
    (call.apply s).cycleCount = 2 * (noteRepeatCount last call : Int) := by
  cases call with
  | initLED => simpa [Call.apply, initLED, initLEDOps, run, exec, noteRepeatCount] using hs
  | blinkPixel period repeatCount colorP =>
    have hN : repeatCount ≤ 255 := h
    simp [Call.apply, blinkPixel_eq s period repeatCount colorP hN, noteRepeatCount]
  | lightPixel colorP =>
    simp only [Call.apply, noteRepeatCount, lightPixel_eq]
    split_ifs <;> exact hs
  | blinkCallback =>
    simp only [Call.apply, noteRepeatCount, blinkCallback_cycleCount]
    exact hs

theorem runCalls_cycleCount (calls : List Call) (s : State) (last : Nat)
    (hs : s.cycleCount = 2 * (last : Int)) (h : ∀ call ∈ calls, call.repeatCountFits) :
    (runCalls s calls).cycleCount = 2 * ((calls.foldl noteRepeatCount last : Nat) : Int) := by
  induction calls generalizing s last with
  | nil => exact hs
  | cons call calls ih =>
    simp only [runCalls, List.foldl_cons]
    exact ih _ _ (apply_cycleCount s last call hs (h call (List.mem_cons_self _ _)))
      (fun c hc => h c (List.mem_cons_of_mem _ hc))

/-- C8: after any sequence of `initLED`, `blinkPixel` (with 8-bit repeat counts),
`lightPixel` and `blinkCallback` invocations from the power-on state, `cycleCount` is
twice the repeat count of the most recent `blinkPixel` call (0 if there was none) and
hence even; and for an 8-bit repeat count the product `repeatCount * 2` is stored in
the 16-bit `int` without overflow. -/
theorem C8_cycleCount_even (calls : List Call) (h : ∀ call ∈ calls, call.repeatCountFits) :
    (runCalls powerOn calls).cycleCount = 2 * (lastRepeatCount calls : Int) ∧
    Even (runCalls powerOn calls).cycleCount ∧
    (∀ repeatCount : Nat, repeatCount ≤ 255 →
      wrapInt16 ((repeatCount : Int) * 2) = (repeatCount : Int) * 2) := by
  have hc := runCalls_cycleCount calls powerOn 0 (by decide) h
  refine ⟨hc, ?_, fun n hn => wrapInt16_id (by omega) (by omega)⟩
  rw [hc]
  exact even_two_mul _

theorem C8_cycleCount_even_witness :
    (runCalls powerOn
      [.initLED, .blinkPixel 500 3 255, .blinkCallback, .blinkPixel 100 255 7,
       .blinkCallback, .lightPixel 0, .blinkCallback]).cycleCount = 2 * (255 : Nat) :=
  (C8_cycleCount_even
    [.initLED, .blinkPixel 500 3 255, .blinkCallback, .blinkPixel 100 255 7,
     .blinkCallback, .lightPixel 0, .blinkCallback] (by decide)).1

/-! ### Events after `initLED` -/

theorem timerTick_flags (s : State)
    (h : s.timerStarted = s.timerRunning ∧ s.handlerAttached = s.timerRunning) :
    (timerTick s).timerStarted = (timerTick s).timerRunning ∧
    (timerTick s).handlerAttached = (timerTick s).timerRunning := by
  unfold timerTick
  split_ifs
  · exact blinkCallback_flags s h
  · exact h

/-- In every state reached after `initLED`, `timerRunning` tells whether the timer is
started and whether the handler is attached. -/
theorem runEvents_flags (events : List Event) (s : State)
    (h : s.timerStarted = s.timerRunning ∧ s.handlerAttached = s.timerRunning) :
    (runEvents s events).timerStarted = (runEvents s events).timerRunning ∧
    (runEvents s events).handlerAttached = (runEvents s events).timerRunning := by
  induction events generalizing s with
  | nil => exact h
  | cons e es ih =>
    simp only [runEvents]
    apply ih
    cases e with
    | blinkPixel period repeatCount colorP =>
      have hb := blinkPixel_flags s period repeatCount colorP
      simp only [Event.apply]
      rw [hb.1, hb.2.1, hb.2.2]
      exact ⟨rfl, rfl⟩
    | lightPixel colorP =>
      have hl := lightPixel_flags s colorP h
      simp only [Event.apply]
      rw [hl.1, hl.2.1, hl.2.2]
      exact ⟨rfl, rfl⟩
    | tick => exact timerTick_flags s h

theorem timerTicks_stopped (k : Nat) (s : State) (h : s.timerStarted = false) :
    timerTicks k s = s := by
  induction k with
  | zero => rfl
  | succ k ih =>
    have : timerTick s = s := by simp [timerTick, h]
    simp only [timerTicks, this]
    exact ih

/-- C9: in every state reached from `initLED` (at power-on) by `blinkPixel`, `lightPixel`
and timer-delivered ticks, `lightPixel(c)` leaves the timer stopped, the handler
detached, `timerRunning` false and the pixel showing `c`; no number of timer ticks
changes the state afterwards, so the pixel keeps showing `c` until the next call.  When
`lightPixel` finds `timerRunning` false it performs only `setPixelColor` and `show`,
when it finds it true it performs `stopTimer` first. -/
theorem C9_lightPixel_persists (events : List Event) (c : Nat) :
    ((lightPixel (runEvents (initLED powerOn) events) c).timerStarted = false ∧
     (lightPixel (runEvents (initLED powerOn) events) c).handlerAttached = false ∧
     (lightPixel (runEvents (initLED powerOn) events) c).timerRunning = false ∧
     (lightPixel (runEvents (initLED powerOn) events) c).pixelShown = c) ∧
    (∀ k, timerTicks k (lightPixel (runEvents (initLED powerOn) events) c)
            = lightPixel (runEvents (initLED powerOn) events) c ∧
          (timerTicks k (lightPixel (runEvents (initLED powerOn) events) c)).pixelShown
            = c) ∧
    ((runEvents (initLED powerOn) events).timerRunning = false →
      lightPixelOps (runEvents (initLED powerOn) events) c
        = [.setPixelColor 0 c, .pixelShow]) ∧
    ((runEvents (initLED powerOn) events).timerRunning = true →
      lightPixelOps (runEvents (initLED powerOn) events) c
        = stopTimerOps ++ [.setPixelColor 0 c, .pixelShow]) := by
  have hinv := runEvents_flags events (initLED powerOn) (by decide)
  have hf := lightPixel_flags (runEvents (initLED powerOn) events) c hinv
  have hshown : (lightPixel (runEvents (initLED powerOn) events) c).pixelShown = c := by
    rw [lightPixel_eq]; split_ifs <;> rfl
  refine ⟨⟨hf.1, hf.2.1, hf.2.2, hshown⟩, ?_, ?_, ?_⟩
  · intro k
    rw [timerTicks_stopped k _ hf.1]
    exact ⟨rfl, hshown⟩
  · intro h
    simp [lightPixelOps, h]
  · intro h
    simp [lightPixelOps, h]

theorem C9_lightPixel_persists_witness :
    ((runEvents (initLED powerOn) [.blinkPixel 500 3 255, .tick, .tick]).timerRunning = true ∧
     lightPixelOps (runEvents (initLED powerOn) [.blinkPixel 500 3 255, .tick, .tick]) 7
       = stopTimerOps ++ [.setPixelColor 0 7, .pixelShow]) ∧
    ((runEvents (initLED powerOn) [.blinkPixel 500 1 255, .tick, .tick, .tick]).timerRunning
       = false ∧
     lightPixelOps (runEvents (initLED powerOn) [.blinkPixel 500 1 255, .tick, .tick, .tick]) 7
       = [.setPixelColor 0 7, .pixelShow]) ∧
    timerTicks 5 (lightPixel (runEvents (initLED powerOn) [.blinkPixel 500 3 255, .tick, .tick]) 7)
      = lightPixel (runEvents (initLED powerOn) [.blinkPixel 500 3 255, .tick, .tick]) 7 :=
  ⟨⟨by decide,
    (C9_lightPixel_persists [.blinkPixel 500 3 255, .tick, .tick] 7).2.2.2 (by decide)⟩,
   ⟨by decide,
    (C9_lightPixel_persists [.blinkPixel 500 1 255, .tick, .tick, .tick] 7).2.2.1 (by decide)⟩,
   ((C9_lightPixel_persists [.blinkPixel 500 3 255, .tick, .tick] 7).2.1 5).1⟩

/-- C10: `makeColor` is a function of its three arguments alone, namely the packing
`(red << 16) | (green << 8) | blue`; `makeColor(255,0,0)`, `makeColor(0,255,0)` and
`makeColor(0,0,255)` are pairwise distinct; `makeColor(0,0,0)` is 0, which is the value
`setPixelColor(0, 0, 0, 0)` stores and an off half-cycle of `blinkCallback` flushes. -/
theorem C10_makeColor_packing :
    (∀ red green blue : Nat,
      makeColor red green blue = (red <<< 16) ||| (green <<< 8) ||| blue) ∧
    (makeColor 255 0 0 ≠ makeColor 0 255 0 ∧ makeColor 255 0 0 ≠ makeColor 0 0 255 ∧
     makeColor 0 255 0 ≠ makeColor 0 0 255) ∧
    makeColor 0 0 0 = 0 ∧
    (∀ s : State, (exec s (.setPixelColorRGB 0 0 0 0)).pixelBuffer = makeColor 0 0 0) ∧
    (∀ s : State, s.currentCycle < s.cycleCount →
      ¬ (s.currentCycle = 0 ∨ s.currentCycle.tmod 2 = 0) →
      flushes s (blinkCallbackOps s) = [makeColor 0 0 0]) := by
  refine ⟨fun _ _ _ => rfl, by decide, by decide, fun s => by simp [exec, makeColor], ?_⟩
  intro s h hp
  simp [blinkCallbackOps, h, hp, flushes, exec, makeColor]

theorem C10_makeColor_packing_witness :
    (ticks 1 (blinkPixel powerOn 500 3 (makeColor 255 0 0))).currentCycle = 1 ∧
    flushes (ticks 1 (blinkPixel powerOn 500 3 (makeColor 255 0 0)))
        (blinkCallbackOps (ticks 1 (blinkPixel powerOn 500 3 (makeColor 255 0 0))))
      = [makeColor 0 0 0] :=
  ⟨by decide,
   C10_makeColor_packing.2.2.2.2 (ticks 1 (blinkPixel powerOn 500 3 (makeColor 255 0 0)))
     (by decide) (by decide)⟩

/-- C11: the code breaks the claim.  With the session of `blinkPixel(250, 5, 255)` three
ticks old, a tick delivered inside `blinkPixel(500, 3, 16711680)` right after its first
statement `currentCycle = 0` finds the new `currentCycle` 0 together with the old
`cycleCount` 10 and the old `color` 255, and flushes the old colour 255: neither what
the old session would flush next (0) nor what the new session flushes first (16711680).
After the call returns, the ticks flush `0, 16711680, 0, 16711680, 0`, five colours
starting with black, instead of `16711680, 0, …` of length 6. -/
theorem C11_tick_between_writes_sees_mixed_session :
    ((run (ticks 3 (blinkPixel (initLED powerOn) 250 5 255))
        ((blinkPixelOps 500 3 16711680).take 1)).currentCycle = 0 ∧
     (run (ticks 3 (blinkPixel (initLED powerOn) 250 5 255))
        ((blinkPixelOps 500 3 16711680).take 1)).cycleCount = 10 ∧
     (run (ticks 3 (blinkPixel (initLED powerOn) 250 5 255))
        ((blinkPixelOps 500 3 16711680).take 1)).color = 255 ∧
     (run (ticks 3 (blinkPixel (initLED powerOn) 250 5 255))
        ((blinkPixelOps 500 3 16711680).take 1)).timerStarted = true ∧
     (run (ticks 3 (blinkPixel (initLED powerOn) 250 5 255))
        ((blinkPixelOps 500 3 16711680).take 1)).handlerAttached = true) ∧
    flushes
        (run (ticks 3 (blinkPixel (initLED powerOn) 250 5 255))
          ((blinkPixelOps 500 3 16711680).take 1))
        (blinkCallbackOps
          (run (ticks 3 (blinkPixel (initLED powerOn) 250 5 255))
            ((blinkPixelOps 500 3 16711680).take 1))) = [255] ∧
    flushes (ticks 3 (blinkPixel (initLED powerOn) 250 5 255))
        (blinkCallbackOps (ticks 3 (blinkPixel (initLED powerOn) 250 5 255))) = [0] ∧
    tickFlushes 1 (blinkPixel (ticks 3 (blinkPixel (initLED powerOn) 250 5 255)) 500 3 16711680)
      = [16711680] ∧
    tickFlushes 7
        (blinkPixelPreempted (ticks 3 (blinkPixel (initLED powerOn) 250 5 255)) 1 500 3 16711680)
      = [0, 16711680, 0, 16711680, 0] ∧
    tickFlushes 7
        (blinkPixelPreempted (ticks 3 (blinkPixel (initLED powerOn) 250 5 255)) 1 500 3 16711680)
      ≠ blinkPattern 16711680 (2 * 3) := by
  refine ⟨⟨by decide, by decide, by decide, by decide, by decide⟩,
    by decide, by decide, by decide, by decide, by decide⟩

/-- C16: the code breaks the claim.  For the on-time 65536 ms (switch closed, door
closed) `isDoorOpen` returns `true`: the `unsigned long` on-time is cut to the 16 bits
of `unsigned int onTime`, so `isDoorOpen` answers `true` exactly when the on-time is a
multiple of 65536, not only when it is 0. -/
theorem C16_isDoorOpen_truncates_on_time :
    ((65536 : Nat) > 0 ∧ 65536 < 4294967296 ∧ isDoorOpen 65536 = true) ∧
    (∀ t : Nat, isDoorOpen t = decide (t % 65536 = 0)) := by
  refine ⟨⟨by decide, by decide, by decide⟩, ?_⟩
  intro t
  unfold isDoorOpen
  by_cases h : t % 65536 = 0
  · simp [h]
  · have : t % 65536 > 0 := Nat.pos_of_ne_zero h
    simp [h, this]

end SLiPoM

namespace WarpDriveLighting

open ControlKnobClass

/-! ## One call of `checkForNewControlMode` -/

theorem otherMode_ne (mode : Nat) : otherMode mode ≠ mode := by
  unfold otherMode CK_MODE_1 CK_MODE_2
  split_ifs <;> omega

theorem otherMode_otherMode (mode : Nat) (h : mode = CK_MODE_1 ∨ mode = CK_MODE_2) :
    otherMode (otherMode mode) = mode := by
  rcases h with h | h <;> simp [h, otherMode, CK_MODE_1, CK_MODE_2]

theorem otherMode_range (mode : Nat) :
    otherMode mode = CK_MODE_1 ∨ otherMode mode = CK_MODE_2 := by
  unfold otherMode
  split_ifs
  · exact Or.inr rfl
  · exact Or.inl rfl

/-- The mode flips exactly on a fall below the threshold. -/
theorem check_mode (k : ControlKnobClass) (analog : Int) :
    (k.checkForNewControlMode analog).1.currentControlMode =
      if isFall k.previousControlValue (k.readControlValue analog) then
        otherMode k.currentControlMode
      else k.currentControlMode := by
  unfold checkForNewControlMode isFall otherMode
  simp only [refreshModeDisplay, digitalWrite, decide_eq_true_eq]
  split_ifs <;> first | rfl | omega

theorem check_previous (k : ControlKnobClass) (analog : Int) :
    (k.checkForNewControlMode analog).1.previousControlValue = k.readControlValue analog := by
  unfold checkForNewControlMode
  simp only [refreshModeDisplay, digitalWrite]
  split_ifs <;> rfl

theorem check_current (k : ControlKnobClass) (analog : Int) :
    (k.checkForNewControlMode analog).1.currentControlValue = k.readControlValue analog := by
  unfold checkForNewControlMode
  simp only [refreshModeDisplay, digitalWrite]
  split_ifs <;> rfl

theorem check_inverted (k : ControlKnobClass) (analog : Int) :
    (k.checkForNewControlMode analog).1.isControlInverted = k.isControlInverted := by
  unfold checkForNewControlMode
  simp only [refreshModeDisplay, digitalWrite]
  split_ifs <;> rfl

theorem readControlValue_congr (k r : ControlKnobClass)
    (h : k.isControlInverted = r.isControlInverted) (analog : Int) :
    k.readControlValue analog = r.readControlValue analog := by
  unfold readControlValue
  rw [h]

/-! ## Sequences of calls -/

theorem runChecks_append (k : ControlKnobClass) (l : List Int) (analog : Int) :
    runChecks k (l ++ [analog]) = ((runChecks k l).checkForNewControlMode analog).1 := by
  induction l generalizing k with
  | nil => rfl
  | cons a rest ih => exact ih _

theorem runChecks_inverted (k : ControlKnobClass) (l : List Int) :
    (runChecks k l).isControlInverted = k.isControlInverted := by
  induction l generalizing k with
  | nil => rfl
  | cons a rest ih =>
    simp only [runChecks]
    rw [ih, check_inverted]

/-- The stored previous value is the last value read. -/
theorem runChecks_previous (r k : ControlKnobClass)
    (hr : k.isControlInverted = r.isControlInverted) (l : List Int) :
    (runChecks k l).previousControlValue
      = (l.map r.readControlValue).getLastD k.previousControlValue := by
  induction l generalizing k with
  | nil => rfl
  | cons a rest ih =>
    simp only [runChecks, List.map_cons, List.getLastD_cons]
    rw [ih _ (by rw [check_inverted, hr]), check_previous, readControlValue_congr k r hr]

/-- The mode after a sequence of calls, by the parity of the number of falls. -/
theorem runChecks_mode (r k : ControlKnobClass)
    (hr : k.isControlInverted = r.isControlInverted)
    (hm : k.currentControlMode = CK_MODE_1 ∨ k.currentControlMode = CK_MODE_2)
    (l : List Int) :
    (runChecks k l).currentControlMode =
      if Even (countFalls (k.previousControlValue :: l.map r.readControlValue)) then
        k.currentControlMode
      else otherMode k.currentControlMode := by
  induction l generalizing k with
  | nil => simp [runChecks, countFalls]
  | cons a rest ih =>
    have hv := readControlValue_congr k r hr a
    have hm2 : (k.checkForNewControlMode a).1.currentControlMode = CK_MODE_1 ∨
        (k.checkForNewControlMode a).1.currentControlMode = CK_MODE_2 := by
      rw [check_mode]
      split_ifs
      · exact otherMode_range _
      · exact hm
    simp only [runChecks, List.map_cons, countFalls]
    rw [ih _ (by rw [check_inverted, hr]) hm2, check_previous, check_mode, hv]
    by_cases hf : isFall k.previousControlValue (r.readControlValue a) = true
    · simp only [hf, if_true, Nat.even_add, otherMode_otherMode _ hm]
      by_cases he : Even (countFalls (r.readControlValue a :: List.map r.readControlValue rest))
      · simp [he]
      · simp [he]
    · simp only [hf, Bool.false_eq_true, if_false, Nat.zero_add]

/-! ## The object after `begin` -/

theorem begin_inverted (k : ControlKnobClass) (controlPin m1 m2 : Nat) (inv : Bool)
    (analog : Int) : (begin k controlPin m1 m2 inv analog).isControlInverted = inv := by
  unfold begin
  simp only [check_inverted]
  rfl

theorem begin_previous (k : ControlKnobClass) (controlPin m1 m2 : Nat) (inv : Bool)
    (analog : Int) :
    (begin k controlPin m1 m2 inv analog).previousControlValue
      = (begin k controlPin m1 m2 inv analog).readControlValue analog := by
  rw [readControlValue_congr _ { k with isControlInverted := inv }
    (begin_inverted k controlPin m1 m2 inv analog)]
  unfold begin
  simp only [check_previous]
  rfl

theorem begin_mode (k : ControlKnobClass) (controlPin m1 m2 : Nat) (inv : Bool)
    (analog : Int) : (begin k controlPin m1 m2 inv analog).currentControlMode = CK_MODE_1 := by
  unfold begin
  simp only [check_mode]
  simp [isFall, pinMode]

theorem check_signalPins (k : ControlKnobClass) (analog : Int) :
    (k.checkForNewControlMode analog).1.signalPins = k.signalPins := by
  unfold checkForNewControlMode
  simp only [refreshModeDisplay, digitalWrite]
  split_ifs <;> rfl

/-- Every call ends with `refreshModeDisplay`: both signal pins written `LOW`, then the
pin of the selected mode written `HIGH`. -/
theorem check_pinLevel (k : ControlKnobClass) (analog : Int) :
    ∃ levels : Nat → Bool,
      (k.checkForNewControlMode analog).1.pinLevel =
        Function.update
          (Function.update (Function.update levels (k.signalPins CK_MODE_1) LOW)
            (k.signalPins CK_MODE_2) LOW)
          (k.signalPins (k.checkForNewControlMode analog).1.currentControlMode) HIGH := by
  unfold checkForNewControlMode
  simp only [refreshModeDisplay, digitalWrite]
  split_ifs <;> exact ⟨_, rfl⟩

/-- After a call the signal pin of the mode that is not selected is `LOW`, whenever the
two signal pins are distinct. -/
theorem check_other_pin_low (k : ControlKnobClass) (analog : Int)
    (hp : k.signalPins CK_MODE_1 ≠ k.signalPins CK_MODE_2)
    (hm : k.currentControlMode = CK_MODE_1 ∨ k.currentControlMode = CK_MODE_2) :
    (k.checkForNewControlMode analog).1.pinLevel
      ((k.checkForNewControlMode analog).1.signalPins
        (otherMode (k.checkForNewControlMode analog).1.currentControlMode)) = LOW := by
  obtain ⟨levels, hl⟩ := check_pinLevel k analog
  have hm2 : (k.checkForNewControlMode analog).1.currentControlMode = CK_MODE_1 ∨
      (k.checkForNewControlMode analog).1.currentControlMode = CK_MODE_2 := by
    rw [check_mode]
    split_ifs
    · exact otherMode_range _
    · exact hm
  rw [hl, check_signalPins]
  rcases hm2 with h | h
  · have ho : otherMode CK_MODE_1 = CK_MODE_2 := rfl
    rw [h, ho, Function.update_noteq hp.symm, Function.update_same]
  · have ho : otherMode CK_MODE_2 = CK_MODE_1 := rfl
    rw [h, ho, Function.update_noteq hp, Function.update_noteq hp, Function.update_same]

/-! ## Claims on the control knob -/

/-- C12: let `v0` be the knob value read inside `begin` and let further
`checkForNewControlMode` calls read further values.  Before each call the stored
previous value is the value read last; a call changes the mode to the respective other
mode exactly when the value read last is at least 1015 and the value it reads is below
1015, and leaves the mode unchanged otherwise; after any sequence of calls
`getCurrentControlMode` is `CK_MODE_1` iff the number of such falls among
`v0, v1, …, vn` is even. -/
theorem C12_mode_flips_on_falls (k : ControlKnobClass) (controlPin m1 m2 : Nat)
    (inv : Bool) (a0 : Int) (earlier : List Int) (a : Int) (all : List Int) :
    (runChecks (begin k controlPin m1 m2 inv a0) earlier).previousControlValue
      = (earlier.map (begin k controlPin m1 m2 inv a0).readControlValue).getLastD
          ((begin k controlPin m1 m2 inv a0).readControlValue a0) ∧
    (runChecks (begin k controlPin m1 m2 inv a0) (earlier ++ [a])).getCurrentControlMode
      = (if (earlier.map (begin k controlPin m1 m2 inv a0).readControlValue).getLastD
              ((begin k controlPin m1 m2 inv a0).readControlValue a0) ≥ 1015 ∧
            (begin k controlPin m1 m2 inv a0).readControlValue a < 1015 then
          otherMode (runChecks (begin k controlPin m1 m2 inv a0) earlier).getCurrentControlMode
        else (runChecks (begin k controlPin m1 m2 inv a0) earlier).getCurrentControlMode) ∧
    (∀ mode, otherMode mode ≠ mode) ∧
    ((runChecks (begin k controlPin m1 m2 inv a0) all).getCurrentControlMode = CK_MODE_1 ↔
      Even (countFalls ((begin k controlPin m1 m2 inv a0).readControlValue a0
        :: all.map (begin k controlPin m1 m2 inv a0).readControlValue))) := by
  have hprev : ∀ l, (runChecks (begin k controlPin m1 m2 inv a0) l).previousControlValue
      = (l.map (begin k controlPin m1 m2 inv a0).readControlValue).getLastD
          ((begin k controlPin m1 m2 inv a0).readControlValue a0) := by
    intro l
    rw [runChecks_previous (begin k controlPin m1 m2 inv a0) _ rfl, begin_previous]
  refine ⟨hprev earlier, ?_, otherMode_ne, ?_⟩
  · unfold getCurrentControlMode
    rw [runChecks_append, check_mode, hprev,
      readControlValue_congr _ (begin k controlPin m1 m2 inv a0) (runChecks_inverted _ _)]
    simp only [isFall, decide_eq_true_eq]
  · unfold getCurrentControlMode
    rw [runChecks_mode (begin k controlPin m1 m2 inv a0) _ rfl
      (Or.inl (begin_mode k controlPin m1 m2 inv a0)), begin_previous, begin_mode]
    split_ifs with he
    · simp [he]
    · simp [he, otherMode, CK_MODE_1, CK_MODE_2]

/-- C13: whatever the prior object, the pins, `invertControl` and the first reading,
`getCurrentControlMode` right after `begin` is `CK_MODE_1`. -/
theorem C13_begin_starts_in_mode_1 (k : ControlKnobClass) (controlPin m1 m2 : Nat)
    (inv : Bool) (analog : Int) :
    (begin k controlPin m1 m2 inv analog).getCurrentControlMode = CK_MODE_1 :=
  begin_mode k controlPin m1 m2 inv analog

/-- C14: the code breaks the claim.  After `begin(14, 2, 3, false)` with a first reading
of 1020 the knob is in control change mode, yet on return pin 2 (mode 1) is `HIGH` and
pin 3 (mode 2) is `LOW`, and it stays so after a further call reading 1020: the two
`digitalWrite(…, HIGH)` of the change-mode branch are undone by the unconditional
`refreshModeDisplay()` at the end of the call.  For distinct signal pins the pin of the
mode that is not selected is `LOW` after every call. -/
theorem C14_only_selected_pin_high :
    ((begin initial 14 2 3 false 1020).isInControlChangeMode = true ∧
     (begin initial 14 2 3 false 1020).pinLevel 2 = HIGH ∧
     (begin initial 14 2 3 false 1020).pinLevel 3 = LOW) ∧
    ((runChecks (begin initial 14 2 3 false 1020) [1020]).isInControlChangeMode = true ∧
     (runChecks (begin initial 14 2 3 false 1020) [1020]).pinLevel 2 = HIGH ∧
     (runChecks (begin initial 14 2 3 false 1020) [1020]).pinLevel 3 = LOW) ∧
    (∀ (k : ControlKnobClass) (analog : Int),
      k.signalPins CK_MODE_1 ≠ k.signalPins CK_MODE_2 →
      (k.currentControlMode = CK_MODE_1 ∨ k.currentControlMode = CK_MODE_2) →
      (k.checkForNewControlMode analog).1.pinLevel
        ((k.checkForNewControlMode analog).1.signalPins
          (otherMode (k.checkForNewControlMode analog).1.currentControlMode)) = LOW) := by
  refine ⟨⟨by decide, by decide, by decide⟩, ⟨by decide, by decide, by decide⟩, ?_⟩
  intro k analog hp hm
  exact check_other_pin_low k analog hp hm

/-- C15: for a raw reading `a` in 0..1023, `readControlValue` returns `a` when
`isControlInverted` is false and `1023 - a` when it is true; the result lies in
0..1023; reading an inverted value through the inversion again gives `a` back; and the
inversion maps the raw readings `a ≤ 8`, and only those, onto the values at or above
1015 (every value in 1015..1023 comes from a raw reading in 0..8). -/
theorem C15_readControlValue_range (k : ControlKnobClass) (a : Int)
    (h0 : 0 ≤ a) (h1 : a ≤ 1023) :
    (k.isControlInverted = false → k.readControlValue a = a) ∧
    (k.isControlInverted = true → k.readControlValue a = 1023 - a) ∧
    (0 ≤ k.readControlValue a ∧ k.readControlValue a ≤ 1023) ∧
    (k.isControlInverted = true → k.readControlValue (k.readControlValue a) = a) ∧
    (k.isControlInverted = true → (a ≤ 8 ↔ 1015 ≤ k.readControlValue a)) ∧
    (k.isControlInverted = true → ∀ v : Int, 1015 ≤ v → v ≤ 1023 →
      ∃ b : Int, 0 ≤ b ∧ b ≤ 8 ∧ k.readControlValue b = v) := by
  have hw : ∀ x : Int, 0 ≤ x → x ≤ 1023 → SLiPoM.wrapInt16 (1023 - x) = 1023 - x :=
    fun x hx0 hx1 => SLiPoM.wrapInt16_id (by omega) (by omega)
  cases hinv : k.isControlInverted
  · simp [readControlValue, hinv, h0, h1]
  · simp only [readControlValue, hinv, if_true, hw a h0 h1]
    refine ⟨by simp, by simp, ⟨by omega, by omega⟩, ?_, ?_, ?_⟩
    · intro _
      rw [hw (1023 - a) (by omega) (by omega)]
      omega
    · intro _
      constructor <;> intro h <;> omega
    · intro _ v hv0 hv1
      refine ⟨1023 - v, by omega, by omega, ?_⟩
      rw [hw (1023 - v) (by omega) (by omega)]
      omega

theorem C15_readControlValue_range_witness :
    ({ initial with isControlInverted := true } : ControlKnobClass).readControlValue 5 = 1023 - 5 ∧
    (0 ≤ ({ initial with isControlInverted := true } : ControlKnobClass).readControlValue 5 ∧
     ({ initial with isControlInverted := true } : ControlKnobClass).readControlValue 5 ≤ 1023) :=
  ⟨(C15_readControlValue_range { initial with isControlInverted := true } 5
      (by decide) (by decide)).2.1 rfl,
   (C15_readControlValue_range { initial with isControlInverted := true } 5
      (by decide) (by decide)).2.2.1⟩

/-- C17: the code breaks the claim.  `checkForNewControlMode` stores the value read by
`readControlValue` in `currentControlValue` and `previousControlValue`, but its body has
no `return` statement: for every object and reading no value is returned, in particular
not the value read (for instance not 512 after `begin` and a reading of 512). -/
theorem C17_checkForNewControlMode_returns_nothing :
    (∀ (k : ControlKnobClass) (analog : Int),
      (k.checkForNewControlMode analog).2 = none ∧
      (k.checkForNewControlMode analog).2 ≠ some (k.readControlValue analog) ∧
      (k.checkForNewControlMode analog).1.currentControlValue = k.readControlValue analog ∧
      (k.checkForNewControlMode analog).1.previousControlValue
        = k.readControlValue analog) ∧
    ((begin initial 14 2 3 false 100).readControlValue 512 = 512 ∧
     ((begin initial 14 2 3 false 100).checkForNewControlMode 512).2 = none) := by
  refine ⟨fun k analog => ⟨rfl, ?_, check_current k analog, check_previous k analog⟩,
    by decide, rfl⟩
  intro h
  exact Option.noConfusion (h : (none : Option Int) = some _)

end WarpDriveLighting
